import Mathlib

/-!
Shallow embedding of the calorie-planning and progress-simulation engine
(`lib/simulation.ts`) of the body-track repository.

Modelling conventions:
* TypeScript `number` values are modelled as `ℚ` (all the arithmetic the
  engine performs is exact on the rationals).
* Calendar dates (always interpreted at UTC midnight by the code) are
  modelled as integers counting days; `today` is an explicit parameter.
  Since every date involved is a UTC midnight, `Math.ceil(diffMs / 86400000)`
  is exactly the integer difference of day numbers.
* `Math.round` is `⌊x + 1/2⌋` (round half toward +∞), `Math.ceil` is `⌈x⌉`.
* `Array.prototype.sort` with a comparator on the ISO date strings is a
  stable sort by the date key; it is modelled by `List.insertionSort`
  (stable) with the corresponding order on day numbers.
* Warning strings are modelled by tags in source push order (the spec
  declares the exact wording a UI concern).
-/

namespace BodyTrack

/-- JavaScript `Math.round`: round half toward positive infinity. -/
def jsRound (q : ℚ) : ℤ := ⌊q + 1/2⌋

inductive Gender where
  | male
  | female
deriving DecidableEq, Repr

/-- `calculateBMR` (lib/simulation.ts): Mifflin-St Jeor basal metabolic rate. -/
def calculateBMR (weight height age : ℚ) (gender : Gender) : ℚ :=
  match gender with
  | Gender.male => 10 * weight + 6.25 * height - 5 * age + 5
  | Gender.female => 10 * weight + 6.25 * height - 5 * age - 161

/-- `PlanInput` (lib/simulation.ts); `targetDate` is a day number. -/
structure PlanInput where
  currentWeight : ℚ
  goalWeight : ℚ
  targetDate : ℤ
  gender : Gender
  age : ℚ
  height : ℚ
  gymSessionHours : ℚ
  gymSessionsPerWeek : ℚ
deriving DecidableEq, Repr

/-- Tags for the advisory warning strings pushed by `computeCaloriePlan`,
in source order of the push sites. -/
inductive Warning where
  | lossStrong
  | lossModerate
  | gainStrong
  | gainModerate
  | deficitStrong
  | deficitModerate
  | surplusStrong
  | surplusModerate
deriving DecidableEq, Repr

/-- Result record of `computeCaloriePlan`. -/
structure PlanOutput where
  maintenanceKcal : ℤ
  gymDayTargetKcal : ℤ
  restDayTargetKcal : ℤ
  bmr : ℤ
  deltaEDay : ℚ
  warnings : List Warning
deriving DecidableEq, Repr

/-- The horizon `N` computed by `computeCaloriePlan`:
`Math.max(1, Math.ceil((target - today) / msPerDay))`, exact on day numbers. -/
def planHorizon (today targetDate : ℤ) : ℤ := max 1 (targetDate - today)

/-- `computeCaloriePlan` (lib/simulation.ts). -/
def computeCaloriePlan (today : ℤ) (input : PlanInput) : PlanOutput :=
  let N : ℚ := (planHorizon today input.targetDate : ℚ)
  let deltaW : ℚ := input.goalWeight - input.currentWeight
  let deltaWDay : ℚ := deltaW / N
  let deltaEDay : ℚ := deltaWDay * 7700
  let bmr : ℚ := calculateBMR input.currentWeight input.height input.age input.gender
  let cRestMaint : ℚ := bmr * 1.3
  let eGym : ℚ := 6 * input.currentWeight * input.gymSessionHours
  let cGymMaint : ℚ := cRestMaint + eGym
  let minIntake : ℚ := bmr * 1.1
  let cRest : ℚ := max (cRestMaint + deltaEDay) minIntake
  let cGym : ℚ := max (cGymMaint + deltaEDay) minIntake
  let weeklyDeltaW : ℚ := deltaWDay * 7
  let warnings : List Warning :=
    (if weeklyDeltaW < -1 then [Warning.lossStrong]
     else if weeklyDeltaW < -0.8 then [Warning.lossModerate]
     else [])
    ++ (if weeklyDeltaW > 0.5 then [Warning.gainStrong]
     else if weeklyDeltaW > 0.3 then [Warning.gainModerate]
     else [])
    ++ (if deltaEDay < -1000 then [Warning.deficitStrong]
     else if deltaEDay < -800 then [Warning.deficitModerate]
     else [])
    ++ (if deltaEDay > 600 then [Warning.surplusStrong]
     else if deltaEDay > 400 then [Warning.surplusModerate]
     else [])
  { maintenanceKcal := jsRound cRestMaint
    gymDayTargetKcal := jsRound cGym
    restDayTargetKcal := jsRound cRest
    bmr := jsRound bmr
    deltaEDay := deltaEDay
    warnings := warnings }

/-- `calculateScore` (lib/simulation.ts): baseline scores 50, goal scores 100,
clamped to [0, 100]. -/
def calculateScore (weight bodyFat goalWeight goalBodyFat initialWeight initialBodyFat : ℚ) : ℚ :=
  let weightScore : ℚ :=
    if initialWeight ≠ goalWeight then
      50 + (initialWeight - weight) / (initialWeight - goalWeight) * 50
    else 50
  let bodyFatScore : ℚ :=
    if initialBodyFat ≠ goalBodyFat then
      50 + (initialBodyFat - bodyFat) / (initialBodyFat - goalBodyFat) * 50
    else 50
  let totalScore : ℚ := (weightScore + bodyFatScore * 1.5) / 2.5
  max 0 (min 100 totalScore)

/-- `calculateProgressRate` (lib/simulation.ts): identical to `calculateScore`. -/
def calculateProgressRate (currentWeight currentBodyFat goalWeight goalBodyFat initialWeight initialBodyFat : ℚ) : ℚ :=
  calculateScore currentWeight currentBodyFat goalWeight goalBodyFat initialWeight initialBodyFat

/-- `InitialSettings` (types/index.ts); `targetDate` is a day number. -/
structure InitialSettings where
  currentWeight : ℚ
  currentBodyFat : ℚ
  goalWeight : ℚ
  goalBodyFat : ℚ
  targetDate : ℤ
  gender : Gender
  age : ℚ
  height : ℚ
  gymSessionHours : ℚ
  gymSessionsPerWeek : ℚ
  maintenanceKcal : ℚ
  gymDayTargetKcal : ℚ
  restDayTargetKcal : ℚ
deriving DecidableEq, Repr

/-- `DailyEntry` (types/index.ts); `date` is a day number, `weight` and
`bodyFat` are the optional measurements. -/
structure DailyEntry where
  id : String
  date : ℤ
  calories : ℚ
  gymHours : ℚ
  weight : Option ℚ
  bodyFat : Option ℚ
deriving DecidableEq, Repr

/-- `ProgressComparison` (lib/simulation.ts). -/
structure ProgressComparison where
  actualProgress : ℚ
  plannedProgress : ℚ
  isOnSchedule : Bool
  daysBehind : Option ℤ
deriving DecidableEq, Repr

/-- `ChartPoint` (lib/simulation.ts). -/
structure ChartPoint where
  date : ℤ
  simulatedScore : ℚ
  actualScore : Option ℚ
  plannedScore : ℚ
  actualWeight : Option ℚ
  simulatedWeight : ℚ
  plannedWeight : ℚ
  actualBodyFat : Option ℚ
  simulatedBodyFat : ℚ
  plannedBodyFat : ℚ
  hasPrediction : Bool
deriving DecidableEq, Repr

/-- The elapsed-days computation of `compareWithPlan`:
`Math.max(0, Math.ceil((today - startDate) / msPerDay))`. -/
def elapsedDaysAt (today startDate : ℤ) : ℤ := max 0 (today - startDate)

/-- The total-days computation shared by `compareWithPlan` and
`buildSimulationData`: `Math.ceil((targetDate - start) / msPerDay)`. -/
def totalDaysToTarget (today targetDate : ℤ) : ℤ := targetDate - today

/-- `compareWithPlan` (lib/simulation.ts). -/
def compareWithPlan (today : ℤ) (settings : InitialSettings) (entries : List DailyEntry) : ProgressComparison :=
  let startDate : ℤ := today
  let totalDays : ℤ := totalDaysToTarget startDate settings.targetDate
  let elapsedDays : ℤ := elapsedDaysAt today startDate
  let plannedProgress : ℚ :=
    if 0 < totalDays then 50 + ((elapsedDays : ℚ) / (totalDays : ℚ)) * 50 else 50
  let latestEntry : Option DailyEntry :=
    ((entries.filter fun e => e.weight.isSome || e.bodyFat.isSome).insertionSort
      fun a b => b.date ≤ a.date).head?
  let currentWeight : ℚ := (latestEntry.bind DailyEntry.weight).getD settings.currentWeight
  let currentBodyFat : ℚ := (latestEntry.bind DailyEntry.bodyFat).getD settings.currentBodyFat
  let actualProgress : ℚ :=
    calculateProgressRate currentWeight currentBodyFat settings.goalWeight settings.goalBodyFat
      settings.currentWeight settings.currentBodyFat
  let isOnSchedule : Bool := decide (plannedProgress - 2.5 ≤ actualProgress)
  let daysBehind : Option ℤ :=
    if isOnSchedule = false ∧ 0 < totalDays then
      some ⌈(plannedProgress - actualProgress) / 50 * (totalDays : ℚ)⌉
    else none
  { actualProgress := actualProgress
    plannedProgress := plannedProgress
    isOnSchedule := isOnSchedule
    daysBehind := daysBehind }

-- ---- buildSimulationData ----

/-- The `Map`-backed lookup of `buildSimulationData`: the map is populated by
iterating the sorted entry list with `set`, so a `get` returns the last
inserted entry with the given date. -/
def entryByDate (entries : List DailyEntry) (d : ℤ) : Option DailyEntry :=
  entries.foldl (fun acc e => if e.date = d then some e else acc) none

/-- Derived, loop-invariant data of one `buildSimulationData` call. -/
structure SimCtx where
  today : ℤ
  settings : InitialSettings
  sortedEntries : List DailyEntry
  totalDays : ℤ
  maintenance : ℚ
  avgDeltaKcal : Option ℚ
  actualEntries : List DailyEntry
deriving DecidableEq, Repr

/-- The preamble of `buildSimulationData`: sorting, the trailing-7-day
average calorie delta (`hasPredictionSource` / `avgDeltaKcal`, conflated
into one `Option` since the code sets them together), and the measured
entries used for plan-deviation adjustment. -/
def mkSimCtx (today : ℤ) (settings : InitialSettings) (entries : List DailyEntry) : SimCtx :=
  let sortedEntries := entries.insertionSort fun a b => a.date ≤ b.date
  let maintenance : ℚ := settings.maintenanceKcal
  let avgDeltaKcal : Option ℚ :=
    match sortedEntries.getLast?, decide (0 < maintenance) with
    | some lastE, true =>
      let weekAgo : ℤ := lastE.date - 6
      let recentEntries := sortedEntries.filter fun e =>
        decide (weekAgo ≤ e.date) && decide (e.date ≤ lastE.date)
      if 7 ≤ recentEntries.length then
        some ((recentEntries.map fun e => e.calories - maintenance).sum / (recentEntries.length : ℚ))
      else none
    | _, _ => none
  { today := today
    settings := settings
    sortedEntries := sortedEntries
    totalDays := totalDaysToTarget today settings.targetDate
    maintenance := maintenance
    avgDeltaKcal := avgDeltaKcal
    actualEntries := sortedEntries.filter fun e => e.weight.isSome || e.bodyFat.isSome }

/-- Running accumulator of the simulation loop. -/
structure SimState where
  weight : ℚ
  bodyFat : ℚ
  lastActualDay : ℤ
deriving DecidableEq, Repr

/-- The entry looked up for simulated day `i` (date `today + i`). -/
def dayEntry (ctx : SimCtx) (i : ℕ) : Option DailyEntry :=
  entryByDate ctx.sortedEntries (ctx.today + (i : ℤ))

/-- The coarse weekly gym-day distribution heuristic:
`i % Math.round(7 / gymSessionsPerWeek || 1) === 0` (with zero sessions per
week meaning no gym days; a zero modulus makes the JS `%` yield `NaN`,
which is never `=== 0`). -/
def isGymDayPlanned (sessionsPerWeek : ℚ) (i : ℕ) : Bool :=
  if 0 < sessionsPerWeek then
    let m : ℤ := jsRound (7 / sessionsPerWeek)
    if m = 0 then false else decide ((i : ℤ) % m = 0)
  else false

/-- Provenance of the calorie figure used for one simulated day. -/
inductive CalorieSource where
  | fromEntry
  | fromPrediction
  | fromPlan
deriving DecidableEq, Repr

/-- The `usedCalories` choice of `buildSimulationData`, with its provenance:
(a) a logged entry's calories; else (b) on a future day with the trailing
7-day history, maintenance plus the average delta; else (c) the plan's
target for the day type. -/
def usedCaloriesFor (ctx : SimCtx) (i : ℕ) : ℚ × CalorieSource :=
  let date : ℤ := ctx.today + (i : ℤ)
  let isFuture : Bool := decide (ctx.today < date)
  match entryByDate ctx.sortedEntries date with
  | some e => (e.calories, CalorieSource.fromEntry)
  | none =>
    match ctx.avgDeltaKcal, isFuture with
    | some avg, true => (ctx.maintenance + avg, CalorieSource.fromPrediction)
    | _, _ =>
      let plannedCalories : ℚ :=
        if isGymDayPlanned ctx.settings.gymSessionsPerWeek i then
          ctx.settings.gymDayTargetKcal
        else ctx.settings.restDayTargetKcal
      (plannedCalories, CalorieSource.fromPlan)

/-- The day's calorie-based update of the running (weight, body fat) pair:
guarded by `maintenance > 0 && usedCalories` (JS truthiness: nonzero); on a
weight-losing day 80% of the lost mass is taken from fat mass, and the fat
percentage is recomputed against the already-updated weight. -/
def calorieStepUpdate (maintenance used w bf : ℚ) : ℚ × ℚ :=
  if 0 < maintenance ∧ used ≠ 0 then
    let deltaWeight : ℚ := (used - maintenance) / 7700
    let w2 : ℚ := w + deltaWeight
    if deltaWeight < 0 then
      let fatLoss : ℚ := |deltaWeight| * 0.8
      let currentFatMass : ℚ := w2 * bf / 100
      let newFatMass : ℚ := max 0 (currentFatMass - fatLoss)
      (w2, newFatMass / w2 * 100)
    else (w2, bf)
  else (w, bf)

/-- The weight component of the day's calorie-based update, as a delta. -/
def dayWeightDelta (maintenance used : ℚ) : ℚ :=
  if 0 < maintenance ∧ used ≠ 0 then (used - maintenance) / 7700 else 0

/-- The planned-score curve: `50 + Math.min(50, d / totalDays * 50)` while
the goal date is ahead, else the constant 50. -/
def plannedScoreAt (totalDays d : ℤ) : ℚ :=
  if 0 < totalDays then 50 + min 50 ((d : ℚ) / (totalDays : ℚ) * 50) else 50

/-- Fallback entry for the (unreachable) `actualEntries[length-1]` access
when the guard `actualEntries.length ≠ 0` failed. -/
def defaultEntry : DailyEntry :=
  { id := "", date := 0, calories := 0, gymHours := 0, weight := none, bodyFat := none }

/-- One iteration of the `for` loop of `buildSimulationData`: produces the
`ChartPoint` for day `i` and the next accumulator state. -/
def simStep (ctx : SimCtx) (i : ℕ) (st : SimState) : ChartPoint × SimState :=
  let date : ℤ := ctx.today + (i : ℤ)
  let actualWeight : Option ℚ := (dayEntry ctx i).bind DailyEntry.weight
  let actualBodyFat : Option ℚ := (dayEntry ctx i).bind DailyEntry.bodyFat
  let w0 : ℚ := actualWeight.getD st.weight
  let bf0 : ℚ := actualBodyFat.getD st.bodyFat
  let lastActualDay : ℤ :=
    if actualWeight.isSome || actualBodyFat.isSome then (i : ℤ) else st.lastActualDay
  let usedCalories : ℚ := (usedCaloriesFor ctx i).1
  let updated : ℚ × ℚ := calorieStepUpdate ctx.maintenance usedCalories w0 bf0
  let w1 : ℚ := updated.1
  let bf1 : ℚ := updated.2
  let plannedScore : ℚ := plannedScoreAt ctx.totalDays (i : ℤ)
  let simulatedScoreFromCalories : ℚ :=
    calculateScore w1 bf1 ctx.settings.goalWeight ctx.settings.goalBodyFat
      ctx.settings.currentWeight ctx.settings.currentBodyFat
  let simulatedScore : ℚ :=
    if ctx.actualEntries.length = 0 then plannedScore
    else if 0 ≤ lastActualDay ∧ lastActualDay < (i : ℤ) then
      let daysSinceLastActual : ℤ := (i : ℤ) - lastActualDay
      let remainingDays : ℤ := ctx.totalDays - (i : ℤ)
      if 0 < remainingDays then
        let plannedScoreAtLastActual : ℚ := plannedScoreAt ctx.totalDays lastActualDay
        let lastActualEntry : DailyEntry := ctx.actualEntries.getLast?.getD defaultEntry
        let lastActualWeight : ℚ := lastActualEntry.weight.getD ctx.settings.currentWeight
        let lastActualBodyFat : ℚ := lastActualEntry.bodyFat.getD ctx.settings.currentBodyFat
        let actualScoreAtLastActual : ℚ :=
          calculateScore lastActualWeight lastActualBodyFat ctx.settings.goalWeight
            ctx.settings.goalBodyFat ctx.settings.currentWeight ctx.settings.currentBodyFat
        let deviationAtLastActual : ℚ := actualScoreAtLastActual - plannedScoreAtLastActual
        let adjustment : ℚ := deviationAtLastActual / (remainingDays : ℚ) * (daysSinceLastActual : ℚ)
        simulatedScoreFromCalories + adjustment
      else simulatedScoreFromCalories
    else if (i : ℤ) ≤ lastActualDay then
      if actualWeight = none ∧ actualBodyFat = none then plannedScore
      else simulatedScoreFromCalories
    else plannedScore
  let actualScore : Option ℚ :=
    if actualWeight.isSome && actualBodyFat.isSome then
      some (calculateScore (actualWeight.getD 0) (actualBodyFat.getD 0) ctx.settings.goalWeight
        ctx.settings.goalBodyFat ctx.settings.currentWeight ctx.settings.currentBodyFat)
    else if actualWeight.isSome then
      some (calculateScore (actualWeight.getD 0) bf1 ctx.settings.goalWeight
        ctx.settings.goalBodyFat ctx.settings.currentWeight ctx.settings.currentBodyFat)
    else none
  let plannedWeight : ℚ :=
    if 0 < ctx.totalDays then
      ctx.settings.currentWeight + (ctx.settings.goalWeight - ctx.settings.currentWeight) *
        min 1 ((i : ℚ) / (ctx.totalDays : ℚ))
    else ctx.settings.currentWeight
  let plannedBodyFat : ℚ :=
    if 0 < ctx.totalDays then
      ctx.settings.currentBodyFat + (ctx.settings.goalBodyFat - ctx.settings.currentBodyFat) *
        min 1 ((i : ℚ) / (ctx.totalDays : ℚ))
    else ctx.settings.currentBodyFat
  let point : ChartPoint :=
    { date := date
      simulatedScore := max 0 (min 100 simulatedScore)
      actualScore := actualScore.map fun s => max 0 (min 100 s)
      plannedScore := max 0 (min 100 plannedScore)
      actualWeight := actualWeight
      simulatedWeight := w1
      plannedWeight := plannedWeight
      actualBodyFat := actualBodyFat
      simulatedBodyFat := bf1
      plannedBodyFat := plannedBodyFat
      hasPrediction := decide (ctx.today < date) && ctx.avgDeltaKcal.isSome }
  (point, { weight := w1, bodyFat := bf1, lastActualDay := lastActualDay })

/-- The `for` loop of `buildSimulationData`: day index `i`, accumulator
`st`, `k` days remaining. -/
def simLoop (ctx : SimCtx) : ℕ → SimState → ℕ → List ChartPoint
  | _, _, 0 => []
  | i, st, k + 1 => (simStep ctx i st).1 :: simLoop ctx (i + 1) (simStep ctx i st).2 k

/-- `buildSimulationData` (lib/simulation.ts). -/
def buildSimulationData (today : ℤ) (settings : InitialSettings) (entries : List DailyEntry)
    (days : ℕ := 90) : List ChartPoint :=
  simLoop (mkSimCtx today settings entries) 0
    { weight := settings.currentWeight, bodyFat := settings.currentBodyFat, lastActualDay := -1 }
    days

/-- Iterated loop state: the accumulator entering day `i + j` when the loop
reached day `i` in state `st`. -/
def simIter (ctx : SimCtx) : ℕ → SimState → ℕ → SimState
  | _, st, 0 => st
  | i, st, j + 1 => simIter ctx (i + 1) (simStep ctx i st).2 j

-- ---- concrete fixtures ----

/-- The spec's example-scenario settings: baseline 80 kg / 25 %, goal
70 kg / 18 %, target date 90 days after day 0. -/
def exampleSettings : InitialSettings :=
  { currentWeight := 80, currentBodyFat := 25, goalWeight := 70, goalBodyFat := 18,
    targetDate := 90, gender := Gender.male, age := 30, height := 175,
    gymSessionHours := 1, gymSessionsPerWeek := 3,
    maintenanceKcal := 2000, gymDayTargetKcal := 2400, restDayTargetKcal := 1900 }

/-- Seven consecutive daily logs ending on day 1 (a future date): enough
trailing history for the 7-day extrapolation, with a logged entry on a
future day. -/
def entriesC8 : List DailyEntry :=
  [{ id := "a", date := -5, calories := 1900, gymHours := 0, weight := none, bodyFat := none },
   { id := "b", date := -4, calories := 1900, gymHours := 0, weight := none, bodyFat := none },
   { id := "c", date := -3, calories := 1900, gymHours := 0, weight := none, bodyFat := none },
   { id := "d", date := -2, calories := 1900, gymHours := 0, weight := none, bodyFat := none },
   { id := "e", date := -1, calories := 1900, gymHours := 0, weight := none, bodyFat := none },
   { id := "f", date := 0, calories := 1900, gymHours := 0, weight := none, bodyFat := none },
   { id := "g", date := 1, calories := 1900, gymHours := 0, weight := none, bodyFat := none }]

/-- A single entry for day 0 carrying a weight measurement. -/
def entryC5 : DailyEntry :=
  { id := "c5", date := 0, calories := 1800, gymHours := 1, weight := some 79, bodyFat := some 22 }

/-- Settings whose rest-day target equals maintenance (zero daily delta) and
with no gym sessions. -/
def settingsC9 : InitialSettings :=
  { currentWeight := 80, currentBodyFat := 25, goalWeight := 70, goalBodyFat := 18,
    targetDate := 90, gender := Gender.male, age := 30, height := 175,
    gymSessionHours := 0, gymSessionsPerWeek := 0,
    maintenanceKcal := 2000, gymDayTargetKcal := 2400, restDayTargetKcal := 2000 }

-- ---- helper lemmas ----

/-- `Math.round` is monotone. -/
lemma jsRound_mono {a b : ℚ} (h : a ≤ b) : jsRound a ≤ jsRound b :=
  Int.floor_le_floor (by linarith)

lemma simLoop_length (ctx : SimCtx) :
    ∀ (k i : ℕ) (st : SimState), (simLoop ctx i st k).length = k := by
  intro k
  induction k with
  | zero => intro i st; rfl
  | succ k ih => intro i st; simp [simLoop, ih]

lemma simLoop_getElem (ctx : SimCtx) :
    ∀ (j k i : ℕ) (st : SimState), j < k →
      (simLoop ctx i st k)[j]? = some (simStep ctx (i + j) (simIter ctx i st j)).1 := by
  intro j
  induction j with
  | zero =>
    intro k i st hk
    match k, hk with
    | k + 1, _ => simp [simLoop, simIter]
  | succ j ih =>
    intro k i st hk
    match k, hk with
    | k + 1, hk =>
      have h2 : j < k := by omega
      have h3 : i + 1 + j = i + (j + 1) := by omega
      simp only [simLoop, List.getElem?_cons_succ, simIter]
      rw [ih k (i + 1) (simStep ctx i st).2 h2, h3]

lemma simStep_plannedScore (ctx : SimCtx) (i : ℕ) (st : SimState) :
    (simStep ctx i st).1.plannedScore =
      max 0 (min 100 (plannedScoreAt ctx.totalDays (i : ℤ))) := rfl

lemma simStep_hasPrediction (ctx : SimCtx) (i : ℕ) (st : SimState) :
    (simStep ctx i st).1.hasPrediction =
      (decide (ctx.today < ctx.today + (i : ℤ)) && ctx.avgDeltaKcal.isSome) := rfl

lemma simStep_actualWeight (ctx : SimCtx) (i : ℕ) (st : SimState) :
    (simStep ctx i st).1.actualWeight = (dayEntry ctx i).bind DailyEntry.weight := rfl

lemma simStep_simulatedWeight (ctx : SimCtx) (i : ℕ) (st : SimState) :
    (simStep ctx i st).1.simulatedWeight =
      (calorieStepUpdate ctx.maintenance (usedCaloriesFor ctx i).1
        (((dayEntry ctx i).bind DailyEntry.weight).getD st.weight)
        (((dayEntry ctx i).bind DailyEntry.bodyFat).getD st.bodyFat)).1 := rfl

lemma simStep_snd_bodyFat (ctx : SimCtx) (i : ℕ) (st : SimState) :
    (simStep ctx i st).2.bodyFat =
      (calorieStepUpdate ctx.maintenance (usedCaloriesFor ctx i).1
        (((dayEntry ctx i).bind DailyEntry.weight).getD st.weight)
        (((dayEntry ctx i).bind DailyEntry.bodyFat).getD st.bodyFat)).2 := rfl

lemma simStep_simulatedBodyFat (ctx : SimCtx) (i : ℕ) (st : SimState) :
    (simStep ctx i st).1.simulatedBodyFat =
      (calorieStepUpdate ctx.maintenance (usedCaloriesFor ctx i).1
        (((dayEntry ctx i).bind DailyEntry.weight).getD st.weight)
        (((dayEntry ctx i).bind DailyEntry.bodyFat).getD st.bodyFat)).2 := rfl

lemma calorieStepUpdate_fst (m u w bf : ℚ) :
    (calorieStepUpdate m u w bf).1 = w + dayWeightDelta m u := by
  simp only [calorieStepUpdate, dayWeightDelta]
  split_ifs with h1 h2 <;> simp

lemma calorieStepUpdate_snd_of_nonneg (m u w bf : ℚ)
    (h : 0 ≤ dayWeightDelta m u) : (calorieStepUpdate m u w bf).2 = bf := by
  simp only [dayWeightDelta] at h
  simp only [calorieStepUpdate]
  split_ifs with h1 h2
  · rw [if_pos h1] at h
    exact absurd h2 (not_lt.mpr h)
  · rfl
  · rfl

lemma simStep_simulatedScore_of_no_actuals (ctx : SimCtx) (i : ℕ) (st : SimState)
    (h : ctx.actualEntries = []) :
    (simStep ctx i st).1.simulatedScore = (simStep ctx i st).1.plannedScore := by
  simp only [simStep, h, List.length_nil, if_true]

lemma compareWithPlan_isOnSchedule_iff (today : ℤ) (settings : InitialSettings)
    (entries : List DailyEntry) :
    (compareWithPlan today settings entries).isOnSchedule = true ↔
      (compareWithPlan today settings entries).plannedProgress - 2.5 ≤
        (compareWithPlan today settings entries).actualProgress := by
  simp only [compareWithPlan]
  exact decide_eq_true_iff

lemma compareWithPlan_daysBehind_eq (today : ℤ) (settings : InitialSettings)
    (entries : List DailyEntry) :
    (compareWithPlan today settings entries).daysBehind =
      if (compareWithPlan today settings entries).isOnSchedule = false ∧
          0 < totalDaysToTarget today settings.targetDate then
        some ⌈((compareWithPlan today settings entries).plannedProgress -
          (compareWithPlan today settings entries).actualProgress) / 50 *
          ((totalDaysToTarget today settings.targetDate : ℤ) : ℚ)⌉
      else none := rfl

lemma compareWithPlan_plannedProgress_eq (today : ℤ) (settings : InitialSettings)
    (entries : List DailyEntry) :
    (compareWithPlan today settings entries).plannedProgress = 50 := by
  simp only [compareWithPlan, elapsedDaysAt, totalDaysToTarget, sub_self, max_self]
  split <;> simp

-- ---- C2 ----

/-- Claim C2, counterexample: with baseline (70 kg, 25 %) and goal (70 kg, 18 %)
the goal differs from the baseline, yet evaluating `calculateScore` at the goal
returns 80, not 100 (the weight component is pinned to 50 when
`initialWeight == goalWeight`). -/
theorem calculateScore_goal_not_100_counterexample :
    ¬((70 : ℚ) = 70 ∧ (18 : ℚ) = 25) ∧
    calculateScore 70 18 70 18 70 25 = 80 := by
  constructor
  · intro h
    exact absurd h.2 (by norm_num)
  · norm_num [calculateScore]

/-- Claim C2 (amended): `calculateScore` at the baseline is exactly 50 for all
inputs; `calculateScore` at the goal is exactly 100 whenever BOTH the goal
weight differs from the initial weight AND the goal body fat differs from the
initial body fat (not merely when the goal pair differs from the baseline
pair). -/
theorem calculateScore_anchoring :
    (∀ gw gbf iw ibf : ℚ, calculateScore iw ibf gw gbf iw ibf = 50) ∧
    (∀ gw gbf iw ibf : ℚ, iw ≠ gw → ibf ≠ gbf →
      calculateScore gw gbf gw gbf iw ibf = 100) := by
  constructor
  · intro gw gbf iw ibf
    simp only [calculateScore, sub_self, zero_div, zero_mul, add_zero, ite_self]
    norm_num
  · intro gw gbf iw ibf hw hbf
    simp only [calculateScore, ne_eq, hw, not_false_eq_true, if_true, hbf,
      div_self (sub_ne_zero.mpr hw), div_self (sub_ne_zero.mpr hbf)]
    norm_num

theorem calculateScore_anchoring_witness :
    calculateScore 70 25 69 18 70 25 = 50 ∧
    ((70 : ℚ) ≠ 69 ∧ (25 : ℚ) ≠ 18 ∧ calculateScore 69 18 69 18 70 25 = 100) :=
  ⟨calculateScore_anchoring.1 69 18 70 25,
    by norm_num, by norm_num,
    calculateScore_anchoring.2 69 18 70 25 (by norm_num) (by norm_num)⟩

-- ---- C6 ----

/-- Claim C6 (confirmed): a target date in the past clamps the internally used
horizon to exactly 1 day, and two otherwise-identical inputs with target date
yesterday vs. ten days ago produce identical plans. -/
theorem computeCaloriePlan_past_horizon_one (today : ℤ) (input : PlanInput)
    (h : input.targetDate < today) :
    planHorizon today input.targetDate = 1 ∧
    computeCaloriePlan today { input with targetDate := today - 1 } =
      computeCaloriePlan today { input with targetDate := today - 10 } := by
  have h1 : planHorizon today (today - 1) = 1 := by unfold planHorizon; omega
  have h10 : planHorizon today (today - 10) = 1 := by unfold planHorizon; omega
  constructor
  · unfold planHorizon; omega
  · simp only [computeCaloriePlan, h1, h10]

theorem computeCaloriePlan_past_horizon_one_witness :
    (-5 : ℤ) < 0 ∧
    (planHorizon 0 (-5) = 1 ∧
      computeCaloriePlan 0
          { currentWeight := 80, goalWeight := 70, targetDate := 0 - 1,
            gender := Gender.male, age := 30, height := 175,
            gymSessionHours := 1, gymSessionsPerWeek := 3 } =
        computeCaloriePlan 0
          { currentWeight := 80, goalWeight := 70, targetDate := 0 - 10,
            gender := Gender.male, age := 30, height := 175,
            gymSessionHours := 1, gymSessionsPerWeek := 3 }) :=
  ⟨by decide,
    computeCaloriePlan_past_horizon_one 0
      { currentWeight := 80, goalWeight := 70, targetDate := -5,
        gender := Gender.male, age := 30, height := 175,
        gymSessionHours := 1, gymSessionsPerWeek := 3 } (by decide)⟩

-- ---- C7 ----

/-- Claim C7 (confirmed): `compareWithPlan` reports `isOnSchedule` exactly when
`actualProgress ≥ plannedProgress − 2.5`, and `daysBehind` is
`ceil((plannedProgress − actualProgress)/50 × totalDaysToTarget)` exactly when
off schedule with a positive total-days horizon, `undefined` (none) otherwise. -/
theorem compareWithPlan_schedule_spec (today : ℤ) (settings : InitialSettings)
    (entries : List DailyEntry) :
    ((compareWithPlan today settings entries).isOnSchedule = true ↔
      (compareWithPlan today settings entries).plannedProgress - 2.5 ≤
        (compareWithPlan today settings entries).actualProgress) ∧
    (compareWithPlan today settings entries).daysBehind =
      (if (compareWithPlan today settings entries).isOnSchedule = false ∧
          0 < totalDaysToTarget today settings.targetDate then
        some ⌈((compareWithPlan today settings entries).plannedProgress -
          (compareWithPlan today settings entries).actualProgress) / 50 *
          ((totalDaysToTarget today settings.targetDate : ℤ) : ℚ)⌉
      else none) :=
  ⟨compareWithPlan_isOnSchedule_iff today settings entries,
    compareWithPlan_daysBehind_eq today settings entries⟩

-- ---- C10 ----

/-- Claim C10 (confirmed): in `compareWithPlan` the start date and today are
the same UTC-midnight instant, so the elapsed-days count is 0, the planned
progress is the constant 50 (whatever the sign of the total days), and being
on schedule is equivalent to `actualProgress ≥ 47.5`. -/
theorem compareWithPlan_elapsed_always_zero (today : ℤ) (settings : InitialSettings)
    (entries : List DailyEntry) :
    elapsedDaysAt today today = 0 ∧
    (compareWithPlan today settings entries).plannedProgress = 50 ∧
    ((compareWithPlan today settings entries).isOnSchedule = true ↔
      47.5 ≤ (compareWithPlan today settings entries).actualProgress) := by
  refine ⟨by simp [elapsedDaysAt], compareWithPlan_plannedProgress_eq today settings entries, ?_⟩
  rw [compareWithPlan_isOnSchedule_iff today settings entries,
    compareWithPlan_plannedProgress_eq today settings entries]
  norm_num

-- ---- C1 ----

/-- Claim C1, counterexample: for the valid input (male, age 30, height
71.125 cm, weight 70 kg, goal 69 kg, target tomorrow, no gym), the exact BMR is
999.5, so the returned (rounded) `bmr` is 1000; the floored target intake is
999.5 × 1.1 = 1099.45, which rounds to 1099 < 1100 = round(1000 × 1.1):
the safety floor does not hold against the returned rounded BMR. -/
theorem computeCaloriePlan_safety_floor_counterexample :
    ((0 : ℚ) < 70 ∧ (0 : ℚ) < 69 ∧ (0 : ℚ) < 30 ∧ (0 : ℚ) < 71.125 ∧
      (0 : ℚ) ≤ 0 ∧ (0 : ℚ) ≤ 0 ∧ (0 : ℚ) ≤ 7) ∧
    (computeCaloriePlan 0 ⟨70, 69, 1, Gender.male, 30, 71.125, 0, 0⟩).gymDayTargetKcal <
      jsRound (((computeCaloriePlan 0 ⟨70, 69, 1, Gender.male, 30, 71.125, 0, 0⟩).bmr : ℚ) * 1.1) := by
  constructor
  · norm_num
  · norm_num [computeCaloriePlan, calculateBMR, planHorizon, jsRound, max_def]

/-- Claim C1 (amended): for every valid plan input, the gym-day and rest-day
targets are at least `round(bmr × 1.1)` where `bmr` is the EXACT (unrounded)
Mifflin-St Jeor BMR; the bound against the returned rounded `bmr` field can
fail by one kcal. -/
theorem computeCaloriePlan_safety_floor (today : ℤ) (input : PlanInput)
    (hcw : 0 < input.currentWeight) (hgw : 0 < input.goalWeight)
    (hage : 0 < input.age) (hht : 0 < input.height)
    (hgh : 0 ≤ input.gymSessionHours) (hgs : 0 ≤ input.gymSessionsPerWeek)
    (hgs7 : input.gymSessionsPerWeek ≤ 7) :
    jsRound (calculateBMR input.currentWeight input.height input.age input.gender * 1.1) ≤
      (computeCaloriePlan today input).gymDayTargetKcal ∧
    jsRound (calculateBMR input.currentWeight input.height input.age input.gender * 1.1) ≤
      (computeCaloriePlan today input).restDayTargetKcal := by
  refine ⟨?_, ?_⟩ <;>
  · simp only [computeCaloriePlan]
    exact jsRound_mono (le_max_right _ _)

theorem computeCaloriePlan_safety_floor_witness :
    ((0 : ℚ) < 80 ∧ (0 : ℚ) < 70 ∧ (0 : ℚ) < 30 ∧ (0 : ℚ) < 175 ∧
      (0 : ℚ) ≤ 1 ∧ (0 : ℚ) ≤ 3 ∧ (3 : ℚ) ≤ 7) ∧
    (jsRound (calculateBMR 80 175 30 Gender.male * 1.1) ≤
      (computeCaloriePlan 0 ⟨80, 70, 30, Gender.male, 30, 175, 1, 3⟩).gymDayTargetKcal ∧
     jsRound (calculateBMR 80 175 30 Gender.male * 1.1) ≤
      (computeCaloriePlan 0 ⟨80, 70, 30, Gender.male, 30, 175, 1, 3⟩).restDayTargetKcal) :=
  ⟨by norm_num,
    computeCaloriePlan_safety_floor 0 ⟨80, 70, 30, Gender.male, 30, 175, 1, 3⟩
      (by norm_num) (by norm_num) (by norm_num) (by norm_num)
      (by norm_num) (by norm_num) (by norm_num)⟩

-- ---- C3 ----

/-- Claim C3, counterexample: for male, age 30, height 175 cm, weight 80 kg,
goal 70 kg, target exactly 70 days ahead (−1 kg/week), `computeCaloriePlan`
does NOT return an empty warnings list: the pace is ≥ 0.8 kg/week (moderate
caution) and the daily deficit is −1100 kcal < −1000 (strong caution). -/
theorem computeCaloriePlan_minus1kg_warnings_counterexample :
    (computeCaloriePlan 0 ⟨80, 70, 70, Gender.male, 30, 175, 1, 3⟩).warnings ≠ [] := by
  norm_num [computeCaloriePlan, calculateBMR, planHorizon, max_def]
  decide

/-- Claim C3 (amended): for male, age 30, height 175 cm, weight 80 kg, goal
70 kg, target date exactly 70 days from today (any gym profile), the warnings
list is exactly [moderate weight-loss-pace caution, strong calorie-deficit
caution] — the −1 kg/week pace exceeds the 0.8 kg/week moderate threshold and
the −1100 kcal/day deficit exceeds the −1000 kcal strong threshold. -/
theorem computeCaloriePlan_minus1kg_warnings (today : ℤ) (gymHours sessions : ℚ) :
    (computeCaloriePlan today
        ⟨80, 70, today + 70, Gender.male, 30, 175, gymHours, sessions⟩).warnings =
      [Warning.lossModerate, Warning.deficitStrong] := by
  have hN : planHorizon today (today + 70) = 70 := by unfold planHorizon; omega
  norm_num [computeCaloriePlan, hN, calculateBMR]

-- ---- C4 ----

/-- Claim C4 (confirmed): with an empty entry list the simulated score equals
the planned score at every index, for every settings value; and in the
example scenario (target 90 days out, horizon 90) the planned score is 50 at
index 0 and `100 − (1/90)·50` at index 89. -/
theorem buildSimulationData_no_entries_tracks_plan :
    (∀ (today : ℤ) (settings : InitialSettings) (days i : ℕ),
      (buildSimulationData today settings [] days)[i]?.map ChartPoint.simulatedScore =
        (buildSimulationData today settings [] days)[i]?.map ChartPoint.plannedScore) ∧
    ((buildSimulationData 0 exampleSettings [] 90)[0]?.map ChartPoint.plannedScore =
        some 50 ∧
      (buildSimulationData 0 exampleSettings [] 90)[89]?.map ChartPoint.plannedScore =
        some (100 - 1 / 90 * 50)) := by
  refine ⟨?_, ?_, ?_⟩
  · intro today settings days i
    by_cases hi : i < days
    · rw [buildSimulationData, simLoop_getElem _ i days 0 _ hi]
      exact congrArg some (simStep_simulatedScore_of_no_actuals _ _ _ rfl)
    · rw [buildSimulationData, List.getElem?_eq_none (by rw [simLoop_length]; omega)]
      rfl
  · rw [buildSimulationData, simLoop_getElem _ 0 90 0 _ (by norm_num)]
    simp only [Option.map_some', simStep_plannedScore]
    norm_num [mkSimCtx, exampleSettings, totalDaysToTarget, plannedScoreAt]
  · rw [buildSimulationData, simLoop_getElem _ 89 90 0 _ (by norm_num)]
    simp only [Option.map_some', simStep_plannedScore]
    norm_num [mkSimCtx, exampleSettings, totalDaysToTarget, plannedScoreAt, min_def, max_def]

-- ---- C5 ----

/-- Claim C5 (confirmed): on a simulated day whose entry has a logged weight
`w`, the returned `ChartPoint.actualWeight` is exactly `w`, and the running
simulated-track weight is reset to `w` before the day's calorie-based update:
the recorded simulated weight is `w` plus that day's calorie-derived delta,
independent of the previous running state. -/
theorem buildSimulationData_actual_overrides (today : ℤ) (settings : InitialSettings)
    (entries : List DailyEntry) (days i : ℕ) (e : DailyEntry) (w : ℚ)
    (hi : i < days) (he : dayEntry (mkSimCtx today settings entries) i = some e)
    (hw : e.weight = some w) :
    (buildSimulationData today settings entries days)[i]?.map ChartPoint.actualWeight =
      some (some w) ∧
    (buildSimulationData today settings entries days)[i]?.map ChartPoint.simulatedWeight =
      some (w + dayWeightDelta (mkSimCtx today settings entries).maintenance
        (usedCaloriesFor (mkSimCtx today settings entries) i).1) := by
  rw [buildSimulationData, simLoop_getElem _ i days 0 _ hi, Nat.zero_add]
  constructor
  · simp only [Option.map_some', simStep_actualWeight, he, Option.some_bind, hw]
  · simp only [Option.map_some', simStep_simulatedWeight, he, Option.some_bind, hw,
      Option.getD_some, calorieStepUpdate_fst]

theorem buildSimulationData_actual_overrides_witness :
    (0 : ℕ) < 1 ∧
    dayEntry (mkSimCtx 0 exampleSettings [entryC5]) 0 = some entryC5 ∧
    entryC5.weight = some 79 ∧
    ((buildSimulationData 0 exampleSettings [entryC5] 1)[0]?.map ChartPoint.actualWeight =
        some (some 79) ∧
      (buildSimulationData 0 exampleSettings [entryC5] 1)[0]?.map ChartPoint.simulatedWeight =
        some (79 + dayWeightDelta (mkSimCtx 0 exampleSettings [entryC5]).maintenance
          (usedCaloriesFor (mkSimCtx 0 exampleSettings [entryC5]) 0).1)) :=
  ⟨by decide, rfl, rfl,
    buildSimulationData_actual_overrides 0 exampleSettings [entryC5] 1 0 entryC5 79
      (by decide) rfl rfl⟩

-- ---- C8 ----

/-- Claim C8, counterexample: with seven consecutive logged days ending on a
FUTURE date (day 1), the prediction source is available, so day 1's point has
`hasPrediction = true` — yet day 1 has a logged entry, so the calorie figure
used for that day's projection is the entry's logged calories, not the
short-history extrapolation. -/
theorem hasPrediction_without_extrapolation_counterexample :
    (buildSimulationData 0 exampleSettings entriesC8 90)[1]?.map ChartPoint.hasPrediction =
      some true ∧
    (usedCaloriesFor (mkSimCtx 0 exampleSettings entriesC8) 1).2 = CalorieSource.fromEntry ∧
    CalorieSource.fromEntry ≠ CalorieSource.fromPrediction := by
  refine ⟨?_, by decide, by decide⟩
  rw [buildSimulationData, simLoop_getElem _ 1 90 0 _ (by norm_num)]
  simp only [Option.map_some', simStep_hasPrediction]
  decide

/-- Claim C8 (amended): `hasPrediction` is true iff the day is in the future
AND the trailing 7-day extrapolation source is available — regardless of
whether a logged entry's calories took priority over the extrapolation for
that day's projection. -/
theorem buildSimulationData_hasPrediction_flag (today : ℤ) (settings : InitialSettings)
    (entries : List DailyEntry) (days i : ℕ) (hi : i < days) :
    (buildSimulationData today settings entries days)[i]?.map ChartPoint.hasPrediction =
      some (decide (0 < i) && (mkSimCtx today settings entries).avgDeltaKcal.isSome) := by
  rw [buildSimulationData, simLoop_getElem _ i days 0 _ hi, Nat.zero_add]
  simp only [Option.map_some', simStep_hasPrediction]
  congr 2
  rw [decide_eq_decide]
  omega

theorem buildSimulationData_hasPrediction_flag_witness :
    (0 : ℕ) < 1 ∧
    (buildSimulationData 0 exampleSettings [] 1)[0]?.map ChartPoint.hasPrediction =
      some (decide ((0 : ℕ) < 0) && (mkSimCtx 0 exampleSettings []).avgDeltaKcal.isSome) :=
  ⟨by decide, buildSimulationData_hasPrediction_flag 0 exampleSettings [] 1 0 (by decide)⟩

-- ---- C9 ----

/-- Claim C9 (confirmed): in the daily projection step, when the day carries
no body-fat measurement and the day's weight delta is non-negative, the
running body-fat state (and the recorded simulated body fat) is left
unchanged by the calorie-based update. -/
theorem simStep_bodyFat_frame (ctx : SimCtx) (i : ℕ) (st : SimState)
    (hbf : (dayEntry ctx i).bind DailyEntry.bodyFat = none)
    (hd : 0 ≤ dayWeightDelta ctx.maintenance (usedCaloriesFor ctx i).1) :
    (simStep ctx i st).2.bodyFat = st.bodyFat ∧
    (simStep ctx i st).1.simulatedBodyFat = st.bodyFat := by
  constructor
  · rw [simStep_snd_bodyFat, hbf, Option.getD_none]
    exact calorieStepUpdate_snd_of_nonneg _ _ _ _ hd
  · rw [simStep_simulatedBodyFat, hbf, Option.getD_none]
    exact calorieStepUpdate_snd_of_nonneg _ _ _ _ hd

theorem simStep_bodyFat_frame_witness :
    ((dayEntry (mkSimCtx 0 settingsC9 []) 0).bind DailyEntry.bodyFat = none) ∧
    (0 ≤ dayWeightDelta (mkSimCtx 0 settingsC9 []).maintenance
      (usedCaloriesFor (mkSimCtx 0 settingsC9 []) 0).1) ∧
    ((simStep (mkSimCtx 0 settingsC9 []) 0 ⟨80, 25, -1⟩).2.bodyFat = (25 : ℚ) ∧
      (simStep (mkSimCtx 0 settingsC9 []) 0 ⟨80, 25, -1⟩).1.simulatedBodyFat = 25) := by
  have hd : 0 ≤ dayWeightDelta (mkSimCtx 0 settingsC9 []).maintenance
      (usedCaloriesFor (mkSimCtx 0 settingsC9 []) 0).1 := by
    show (0 : ℚ) ≤ dayWeightDelta 2000 2000
    norm_num [dayWeightDelta]
  exact ⟨rfl, hd, simStep_bodyFat_frame (mkSimCtx 0 settingsC9 []) 0 ⟨80, 25, -1⟩ rfl hd⟩

end BodyTrack
